import Mathlib

/-!
Verification of the table-derivation logic of `src/etl.py`, a two-stage
batch pipeline (catalog extractor `process_song_data`, event extractor
`process_log_data`) that reshapes JSON records into five analytical tables.

The dataframe operations of the source (`select`, `distinct`, `where`,
`withColumn`, inner `join`, `dropDuplicates`) are embedded as functions on
Lean lists of records.  Numeric JSON payloads that the pipeline only ever
projects and compares for equality (duration, latitude, longitude,
sessionId) are carried as `Int`; no claim depends on their arithmetic.
Timestamps (`ts`, epoch milliseconds) are `Int` and are the one numeric
field the pipeline computes with.
-/

/-- A raw catalog record, as read from the song-data JSON files
(fields used by `process_song_data` lines 44 and 51-52 and by the
`songplays` join at lines 116-131). -/
structure SongRecord where
  song_id : String
  title : String
  artist_id : String
  year : Int
  duration : Int
  artist_name : String
  artist_location : String
  artist_latitude : Int
  artist_longitude : Int
deriving DecidableEq

/-- A raw event record, as read from the log-data JSON files
(fields used by `process_log_data`). `ts` is epoch milliseconds. -/
structure LogRecord where
  userId : String
  firstName : String
  lastName : String
  gender : String
  level : String
  page : String
  ts : Int
  sessionId : Int
  location : String
  userAgent : String
  artist : String
deriving DecidableEq

/-- Line 44: `df.select(["song_id", "title", "artist_id", "year", "duration"]).distinct()`.
Spark `distinct` removes exact-duplicate rows; embedded as `List.dedup`. -/
def songs_table (df : List SongRecord) : List (String × String × String × Int × Int) :=
  (df.map fun r => (r.song_id, r.title, r.artist_id, r.year, r.duration)).dedup

/-- Lines 51-52: `df.select(["artist_id", "artist_name", "artist_location",
"artist_latitude", "artist_longitude"]).distinct()`. -/
def artists_table (df : List SongRecord) : List (String × String × String × Int × Int) :=
  (df.map fun r =>
    (r.artist_id, r.artist_name, r.artist_location, r.artist_latitude, r.artist_longitude)).dedup

/-- Line 82: `df.where(page="NextSong")` — keep only rows whose page field
equals the literal string NextSong. -/
def filteredLogs (df : List LogRecord) : List LogRecord :=
  df.filter fun r => r.page == "NextSong"

/-- The column projection of the users table (line 85-86). -/
def usersProj (r : LogRecord) : String × String × String × String × String :=
  (r.userId, r.firstName, r.lastName, r.gender, r.level)

/-- Lines 85-86: `df.select(["userId", "firstName", "lastName", "gender",
"level"]).distinct()`, applied to the filtered dataframe. -/
def users_table (df : List LogRecord) : List (String × String × String × String × String) :=
  ((filteredLogs df).map usersProj).dedup

/-- C1: every row of the songs table produced by `process_song_data` is the
(song_id, title, artist_id, year, duration) projection of some input catalog
row, and the songs table has no two identical rows. -/
theorem C1_songs_rows_from_input (df : List SongRecord)
    (row : String × String × String × Int × Int) (h : row ∈ songs_table df) :
    row ∈ df.map (fun r => (r.song_id, r.title, r.artist_id, r.year, r.duration)) ∧
    (songs_table df).Nodup := by
  refine ⟨?_, List.nodup_dedup _⟩
  exact List.mem_dedup.mp h

/-- A concrete catalog record used in witnesses. -/
def wSong1 : SongRecord :=
  { song_id := "SOAAAA1", title := "Yellow", artist_id := "AR1", year := 2000,
    duration := 200, artist_name := "Coldplay", artist_location := "UK",
    artist_latitude := 51, artist_longitude := 0 }

/-- A second concrete catalog record (same artist, different song). -/
def wSong2 : SongRecord :=
  { song_id := "SOBBBB2", title := "Clocks", artist_id := "AR1", year := 2002,
    duration := 307, artist_name := "Coldplay", artist_location := "UK",
    artist_latitude := 51, artist_longitude := 0 }

/-- Witness for C1 at a concrete two-record input containing a duplicate. -/
theorem C1_songs_rows_from_input_witness :
    ("SOAAAA1", "Yellow", "AR1", (2000 : Int), (200 : Int)) ∈
      [wSong1, wSong2, wSong1].map
        (fun r => (r.song_id, r.title, r.artist_id, r.year, r.duration)) ∧
    (songs_table [wSong1, wSong2, wSong1]).Nodup :=
  C1_songs_rows_from_input [wSong1, wSong2, wSong1] _ (by decide)

/-!
Timestamp derivation, lines 93-98 of the source:

* line 93: `get_timestamp = udf(lambda x: str(int(int(x)/1000)))` — epoch
  seconds as a string (the resulting column is never used downstream);
* line 97: `get_datetime = udf(lambda x: str(datetime.fromtimestamp(int(x) / 1000)))`
  — divide the epoch-millisecond value by 1000 and render the resulting
  calendar date-time.

`datetime.fromtimestamp` is embedded as proleptic-Gregorian conversion of
the epoch-second count (the civil-from-days algorithm), at UTC, which is
the reading the specification pins with 1541440006796 ms ↦ 2018-11-05 17:…;
the fractional second survives as microseconds, exactly at millisecond
precision, and `str` renders `YYYY-MM-DD HH:MM:SS[.ffffff]`, omitting the
fraction when it is zero.  All timestamps in scope are nonnegative.
-/

/-- Calendar date and time-of-day of an epoch instant. -/
structure CivilDateTime where
  year : Int
  month : Int
  day : Int
  hour : Int
  minute : Int
  second : Int
  micros : Int
deriving DecidableEq

/-- Civil (proleptic Gregorian) date from a count of days since 1970-01-01. -/
def civilFromDays (z0 : Int) : Int × Int × Int :=
  let z := z0 + 719468
  let era : Int := (if z ≥ 0 then z else z - 146096) / 146097
  let doe : Int := z - era * 146097
  let yoe : Int := (doe - doe / 1460 + doe / 36524 - doe / 146096) / 365
  let y : Int := yoe + era * 400
  let doy : Int := doe - (365 * yoe + yoe / 4 - yoe / 100)
  let mp : Int := (5 * doy + 2) / 153
  let d : Int := doy - (153 * mp + 2) / 5 + 1
  let m : Int := mp + (if mp < 10 then 3 else -9)
  (y + (if m ≤ 2 then 1 else 0), m, d)

/-- Days since 1970-01-01 of a civil (proleptic Gregorian) date. -/
def daysFromCivil (y0 m d : Int) : Int :=
  let y := y0 - (if m ≤ 2 then 1 else 0)
  let era : Int := (if y ≥ 0 then y else y - 399) / 400
  let yoe : Int := y - era * 400
  let doy : Int := (153 * (m + (if m > 2 then -3 else 9)) + 2) / 5 + d - 1
  let doe : Int := yoe * 365 + yoe / 4 - yoe / 100 + doy
  era * 146097 + doe - 719468

/-- `datetime.fromtimestamp(ts / 1000)` of an epoch-millisecond value. -/
def tsToCivil (ts : Int) : CivilDateTime :=
  let secs := ts / 1000
  let ms := ts % 1000
  let days := secs / 86400
  let sod := secs % 86400
  let ymd := civilFromDays days
  { year := ymd.1, month := ymd.2.1, day := ymd.2.2,
    hour := sod / 3600, minute := (sod % 3600) / 60, second := sod % 60,
    micros := ms * 1000 }

/-- Left-pad a number to two digits, as `str(datetime)` does. -/
def pad2 (n : Int) : String :=
  if n < 10 then "0" ++ toString n else toString n

/-- Left-pad the microsecond count to six digits, as `str(datetime)` does. -/
def pad6 (n : Int) : String :=
  let s := toString n
  String.mk (List.replicate (6 - s.length) '0') ++ s

/-- `str` of a datetime value: `YYYY-MM-DD HH:MM:SS`, with `.ffffff`
appended exactly when the microsecond field is nonzero. -/
def renderCivil (c : CivilDateTime) : String :=
  toString c.year ++ "-" ++ pad2 c.month ++ "-" ++ pad2 c.day ++ " " ++
  pad2 c.hour ++ ":" ++ pad2 c.minute ++ ":" ++ pad2 c.second ++
  (if c.micros = 0 then "" else "." ++ pad6 c.micros)

/-- Line 93: the intermediate timestamp column (epoch seconds as a string). -/
def get_timestamp (x : Int) : String :=
  toString (x / 1000)

/-- Lines 97-98: the canonical datetime column derived from `ts`. -/
def get_datetime (x : Int) : String :=
  renderCivil (tsToCivil x)

/-- The datetime column of a log row (line 98 adds it as a function of `df.ts`). -/
def rowDatetime (r : LogRecord) : String :=
  get_datetime r.ts

/-- ISO weekday, Monday = 1 … Sunday = 7 (1970-01-01 was a Thursday). -/
def isoWeekday (y m d : Int) : Int :=
  (daysFromCivil y m d + 3) % 7 + 1

/-- Weekday in the convention of the engine function named on line 108,
Sunday = 1 … Saturday = 7. -/
def sparkDayOfWeek (y m d : Int) : Int :=
  (daysFromCivil y m d + 4) % 7 + 1

/-- One-based ordinal day of the year. -/
def dayOfYear (y m d : Int) : Int :=
  daysFromCivil y m d - daysFromCivil y 1 1 + 1

/-- Number of ISO weeks in a year (52 or 53). -/
def isoWeeksInYear (y : Int) : Int :=
  let p : Int → Int := fun yy => (yy + yy / 4 - yy / 100 + yy / 400) % 7
  if p y = 4 ∨ p (y - 1) = 3 then 53 else 52

/-- ISO-8601 week of the year, the semantics of `weekofyear` (line 105). -/
def isoWeekOfYear (y m d : Int) : Int :=
  let w := (dayOfYear y m d - isoWeekday y m d + 10) / 7
  if w < 1 then isoWeeksInYear (y - 1)
  else if w > isoWeeksInYear y then 1
  else w

/-- A row of the time table (columns added at lines 101-108: the selected
`datetime` column plus `start_time`, `hour`, `day`, `week`, `month`, `year`,
`weekday`). -/
structure TimeRow where
  datetime : String
  start_time : String
  hour : Int
  day : Int
  week : Int
  month : Int
  year : Int
  weekday : Int
deriving DecidableEq

/-- The time-table row derived from a `ts` value (lines 101-108).  Every
column is a function of the derived datetime.  The weekday column (line 108)
is written `dayofweek(datetime)` in the source; no binding of the module
covers that name — `C10` and `C4` record the resulting
NameError — and is embedded here with the engine semantics its name denotes
(Sunday = 1 … Saturday = 7). -/
def timeRowOf (ts : Int) : TimeRow :=
  let c := tsToCivil ts
  let dt := renderCivil c
  { datetime := dt, start_time := dt, hour := c.hour, day := c.day,
    week := isoWeekOfYear c.year c.month c.day, month := c.month,
    year := c.year, weekday := sparkDayOfWeek c.year c.month c.day }

/-- Lines 101-109: the time table — one derived row per filtered log row,
then `dropDuplicates()` over the full row. -/
def time_table (df : List LogRecord) : List TimeRow :=
  ((filteredLogs df).map fun r => timeRowOf r.ts).dedup

/-- A row of the songplays table (the projection of lines 120-130). -/
structure SongplayRow where
  start_time : String
  user_id : String
  level : String
  song_id : String
  artist_id : String
  session_id : Int
  location : String
  user_agent : String
  year : Int
  month : Int
deriving DecidableEq

/-- The songplays projection (lines 120-130) of one joined (log, catalog)
pair: log columns, catalog song and artist ids, and year and month extracted
from the log row's derived datetime. -/
def songplayOf (l : LogRecord) (s : SongRecord) : SongplayRow :=
  let c := tsToCivil l.ts
  { start_time := renderCivil c, user_id := l.userId, level := l.level,
    song_id := s.song_id, artist_id := s.artist_id, session_id := l.sessionId,
    location := l.location, user_agent := l.userAgent,
    year := c.year, month := c.month }

/-- Lines 119-130: inner join of the filtered log rows with the re-read
catalog on `artist = artist_name`, then the songplays projection.  One
output row per (log row, matching catalog row) pair; log rows with no
matching artist name are dropped. -/
def songplays_table (df : List LogRecord) (song_df : List SongRecord) :
    List SongplayRow :=
  (filteredLogs df).flatMap fun l =>
    (song_df.filter fun s => s.artist_name == l.artist).map fun s => songplayOf l s

/-- A concrete play event used in witnesses and counterexamples. -/
def wLogPlay : LogRecord :=
  { userId := "1", firstName := "Ada", lastName := "L", gender := "F",
    level := "paid", page := "NextSong", ts := 1541440006796, sessionId := 9,
    location := "NY", userAgent := "UA", artist := "Coldplay" }

/-- A concrete play event for the same user at another level. -/
def wLogPlayFree : LogRecord :=
  { userId := "1", firstName := "Ada", lastName := "L", gender := "F",
    level := "free", page := "NextSong", ts := 1541440007000, sessionId := 3,
    location := "NY", userAgent := "UA", artist := "Coldplay" }

/-- A concrete non-play event (page is not NextSong). -/
def wLogHome : LogRecord :=
  { userId := "2", firstName := "Bob", lastName := "M", gender := "M",
    level := "free", page := "Home", ts := 1541440010000, sessionId := 4,
    location := "LA", userAgent := "UA2", artist := "Muse" }

/-- C2: a log row whose page field differs from NextSong contributes no row
to the users, time, or songplays table: deleting such a row from the input,
wherever it sits, leaves all three log-derived tables unchanged. -/
theorem C2_non_nextsong_contributes_nothing (df1 df2 : List LogRecord)
    (r : LogRecord) (h : r.page ≠ "NextSong") (song_df : List SongRecord) :
    users_table (df1 ++ r :: df2) = users_table (df1 ++ df2) ∧
    time_table (df1 ++ r :: df2) = time_table (df1 ++ df2) ∧
    songplays_table (df1 ++ r :: df2) song_df =
      songplays_table (df1 ++ df2) song_df := by
  have hb : (r.page == "NextSong") = false := beq_eq_false_iff_ne.mpr h
  have hf : filteredLogs (df1 ++ r :: df2) = filteredLogs (df1 ++ df2) := by
    simp [filteredLogs, List.filter_append, List.filter_cons, hb]
  exact ⟨by simp [users_table, hf], by simp [time_table, hf],
    by simp [songplays_table, hf]⟩

/-- Witness for C2 at a concrete non-play event. -/
theorem C2_non_nextsong_witness :
    users_table ([wLogPlay] ++ wLogHome :: []) = users_table ([wLogPlay] ++ []) ∧
    time_table ([wLogPlay] ++ wLogHome :: []) = time_table ([wLogPlay] ++ []) ∧
    songplays_table ([wLogPlay] ++ wLogHome :: []) [wSong1] =
      songplays_table ([wLogPlay] ++ []) [wSong1] :=
  C2_non_nextsong_contributes_nothing [wLogPlay] [] wLogHome (by decide) [wSong1]

/-- C5: the datetime derivation of lines 93-98 is a function of the `ts`
field alone, and at ts = 1541440006796 it yields the canonical date-time
2018-11-05 17:46:46.796000, whose calendar fields are internally
consistent: hour 17, day 5, month 11, year 2018, ISO week 45, and weekday
Monday (2 in the Sunday = 1 convention), the true weekday of 2018-11-05. -/
theorem C5_timestamp_deterministic (r1 r2 : LogRecord) (h : r1.ts = r2.ts) :
    rowDatetime r1 = rowDatetime r2 ∧
    get_datetime 1541440006796 = "2018-11-05 17:46:46.796000" ∧
    tsToCivil 1541440006796 =
      { year := 2018, month := 11, day := 5, hour := 17, minute := 46,
        second := 46, micros := 796000 } ∧
    sparkDayOfWeek 2018 11 5 = 2 ∧
    isoWeekOfYear 2018 11 5 = 45 ∧
    get_timestamp 1541440006796 = "1541440006" := by
  refine ⟨by simp [rowDatetime, h], by decide, by decide, by decide,
    by decide, by decide⟩

/-- Witness for C5 at two concrete records sharing a `ts` value. -/
theorem C5_timestamp_deterministic_witness :
    rowDatetime wLogPlay = rowDatetime wLogPlay ∧
    get_datetime 1541440006796 = "2018-11-05 17:46:46.796000" ∧
    tsToCivil 1541440006796 =
      { year := 2018, month := 11, day := 5, hour := 17, minute := 46,
        second := 46, micros := 796000 } ∧
    sparkDayOfWeek 2018 11 5 = 2 ∧
    isoWeekOfYear 2018 11 5 = 45 ∧
    get_timestamp 1541440006796 = "1541440006" :=
  C5_timestamp_deterministic wLogPlay wLogPlay rfl

/-- C6: the users table deduplicates on the full (userId, firstName,
lastName, gender, level) tuple, so two filtered rows of one user carrying
two different level values put two distinct rows for that userId in the
users table. -/
theorem C6_users_two_levels_two_rows (df : List LogRecord) (r1 r2 : LogRecord)
    (h1 : r1 ∈ df) (h2 : r2 ∈ df)
    (hp1 : r1.page = "NextSong") (hp2 : r2.page = "NextSong")
    (hu : r1.userId = r2.userId) (hl : r1.level ≠ r2.level) :
    usersProj r1 ∈ users_table df ∧ usersProj r2 ∈ users_table df ∧
    usersProj r1 ≠ usersProj r2 ∧ (usersProj r1).1 = (usersProj r2).1 := by
  have key : ∀ r, r ∈ df → r.page = "NextSong" → usersProj r ∈ users_table df := by
    intro r hr hp
    simp only [users_table, List.mem_dedup, List.mem_map]
    exact ⟨r, List.mem_filter.mpr ⟨hr, by simp [hp]⟩, rfl⟩
  exact ⟨key r1 h1 hp1, key r2 h2 hp2,
    fun hEq => hl (congrArg (fun p => p.2.2.2.2) hEq), hu⟩

/-- Witness for C6: one user with a paid and a free play. -/
theorem C6_users_two_levels_witness :
    usersProj wLogPlay ∈ users_table [wLogPlay, wLogPlayFree] ∧
    usersProj wLogPlayFree ∈ users_table [wLogPlay, wLogPlayFree] ∧
    usersProj wLogPlay ≠ usersProj wLogPlayFree ∧
    (usersProj wLogPlay).1 = (usersProj wLogPlayFree).1 :=
  C6_users_two_levels_two_rows [wLogPlay, wLogPlayFree] wLogPlay wLogPlayFree
    (by decide) (by decide) (by decide) (by decide) (by decide) (by decide)

/-- C7: on empty input every derived table is empty, and each derivation is
a total function (no failure path in the embedding). -/
theorem C7_empty_input_empty_tables (song_df : List SongRecord) :
    users_table [] = [] ∧ time_table [] = [] ∧
    songplays_table [] song_df = [] ∧
    songs_table [] = [] ∧ artists_table [] = [] :=
  ⟨rfl, rfl, rfl, rfl, rfl⟩

/-- At most one catalog row matches a given artist string when no artist
name repeats in the catalog. -/
theorem filter_artist_length_le_one (song_df : List SongRecord) (a : String)
    (h : (song_df.map SongRecord.artist_name).Nodup) :
    (song_df.filter fun s => s.artist_name == a).length ≤ 1 := by
  induction song_df with
  | nil => simp
  | cons s t ih =>
    simp only [List.map_cons, List.nodup_cons] at h
    rw [List.filter_cons]
    by_cases hs : s.artist_name = a
    · have ht : (t.filter fun x => x.artist_name == a) = [] := by
        refine List.filter_eq_nil_iff.mpr (fun x hx => ?_)
        have : x.artist_name ≠ s.artist_name := by
          intro hEq
          exact h.1 (hEq ▸ List.mem_map_of_mem SongRecord.artist_name hx)
        simp [hs ▸ this]
      simp [hs, ht]
    · have hb : (s.artist_name == a) = false := beq_eq_false_iff_ne.mpr hs
      simpa [hb] using ih h.2

/-- A sum of per-element values each at most one is at most the length. -/
theorem sum_map_le_length {α : Type} (l : List α) (f : α → Nat)
    (h : ∀ x ∈ l, f x ≤ 1) : (l.map f).sum ≤ l.length := by
  induction l with
  | nil => simp
  | cons x t ih =>
    simp only [List.map_cons, List.sum_cons, List.length_cons]
    have hx := h x (List.mem_cons_self x t)
    have ht := ih (fun y hy => h y (List.mem_cons_of_mem _ hy))
    omega

/-- Counterexample to C3 as stated: one filtered play of Coldplay joined
against a catalog holding two Coldplay songs yields two songplays rows —
the inner join on artist name alone does increase the row count when an
artist name recurs in the catalog. -/
theorem C3_counterexample :
    ¬ ((songplays_table [wLogPlay] [wSong1, wSong2]).length ≤
        (filteredLogs [wLogPlay]).length) := by
  decide

/-- C3 amended: when no two catalog rows share an artist name, the
songplays table has at most one row per filtered log row; and in every
case each songplays row arises from a filtered log row and a catalog row
whose artist_name equals the log row's artist (unmatched log rows are
dropped, not an error). -/
theorem C3_join_bound_amended (df : List LogRecord) (song_df : List SongRecord)
    (hA : (song_df.map SongRecord.artist_name).Nodup) :
    (songplays_table df song_df).length ≤ (filteredLogs df).length ∧
    ∀ row ∈ songplays_table df song_df, ∃ l, l ∈ filteredLogs df ∧
      ∃ s, s ∈ song_df ∧ s.artist_name = l.artist ∧ row = songplayOf l s := by
  constructor
  · rw [songplays_table, List.length_flatMap]
    refine sum_map_le_length _ _ (fun l _ => ?_)
    simp only [Function.comp_apply, List.length_map]
    exact filter_artist_length_le_one song_df l.artist hA
  · intro row hrow
    simp only [songplays_table, List.mem_flatMap, List.mem_map] at hrow
    obtain ⟨l, hl, s, hs, hrfl⟩ := hrow
    have hsf := List.mem_filter.mp hs
    exact ⟨l, hl, s, hsf.1, by simpa using hsf.2, hrfl.symm⟩

/-- Witness for the amended C3 at a single-artist catalog. -/
theorem C3_join_bound_amended_witness :
    (songplays_table [wLogPlay] [wSong1]).length ≤
      (filteredLogs [wLogPlay]).length :=
  (C3_join_bound_amended [wLogPlay] [wSong1] (by decide)).1

/-- The five tables one run of `main` (lines 137-143) derives: both
extractors read from the same input location, so the catalog list feeds
`process_song_data` and the re-read at line 116 alike.  The synthetic
`songplay_id` column (line 131) carries engine-chosen values with no
cross-run guarantee; it is modelled by an arbitrary generator `g` applied
to the row position. -/
structure PipelineTables where
  songs : List (String × String × String × Int × Int)
  artists : List (String × String × String × Int × Int)
  users : List (String × String × String × String × String)
  time : List TimeRow
  songplays : List (Int × SongplayRow)

/-- Line 131: attach a synthetic id to every songplays row. -/
def songplays_with_id (g : Nat → Int) (df : List LogRecord)
    (song_df : List SongRecord) : List (Int × SongplayRow) :=
  (songplays_table df song_df).enum.map fun p => (g p.1, p.2)

/-- One run of `main` as a function of the input record sets and the id
generator of that run. -/
def run_main (g : Nat → Int) (catalog : List SongRecord)
    (logs : List LogRecord) : PipelineTables :=
  { songs := songs_table catalog, artists := artists_table catalog,
    users := users_table logs, time := time_table logs,
    songplays := songplays_with_id g logs catalog }

/-- C9: two runs of `main` on identical, unchanged inputs produce identical
songs, artists, users and time tables, and identical songplays tables once
the synthetic songplay_id column — whose per-run values `g1`, `g2` are
unconstrained — is dropped. -/
theorem C9_rerun_row_sets_identical (catalog : List SongRecord)
    (logs : List LogRecord) (g1 g2 : Nat → Int) :
    (run_main g1 catalog logs).songs = (run_main g2 catalog logs).songs ∧
    (run_main g1 catalog logs).artists = (run_main g2 catalog logs).artists ∧
    (run_main g1 catalog logs).users = (run_main g2 catalog logs).users ∧
    (run_main g1 catalog logs).time = (run_main g2 catalog logs).time ∧
    (run_main g1 catalog logs).songplays.map Prod.snd =
      (run_main g2 catalog logs).songplays.map Prod.snd := by
  refine ⟨rfl, rfl, rfl, rfl, ?_⟩
  simp [run_main, songplays_with_id, List.map_map, Function.comp_def,
    List.enum_map_snd]

/-!
Name-resolution and layout facts of `src/etl.py`, transcribed from the
source.  Python resolves a bare name used inside a function body against
the function's local bindings, then the module's global bindings, then the
builtins; a name bound in none of them raises NameError when the
expression containing it is evaluated.  These lists transcribe exactly the
bindings the module creates and the names its expressions reference.
-/

/-- Names bound at module scope: the imports of lines 1-6, `config`
(line 9) and the four function definitions. -/
def etlModuleNames : List String :=
  ["configparser", "datetime", "os", "SparkSession", "udf", "col",
   "year", "month", "dayofmonth", "hour", "weekofyear", "date_format",
   "config", "create_spark_session", "process_song_data",
   "process_log_data", "main"]

/-- The Python builtins the extractor bodies reference (lines 93 and 97). -/
def etlBuiltinsUsed : List String :=
  ["str", "int"]

/-- Local bindings of `process_song_data`: parameters and assigned names. -/
def processSongDataLocals : List String :=
  ["spark", "input_data", "output_data", "song_data", "df",
   "songs_table", "artists_table"]

/-- Local bindings of `process_log_data`: parameters, assigned names, and
the lambda parameter `x` of lines 93 and 97. -/
def processLogDataLocals : List String :=
  ["spark", "input_data", "output_data", "log_data", "df", "users_table",
   "get_timestamp", "get_datetime", "x", "time_table", "song_df",
   "merged_df", "songplays_table"]

/-- Every name resolvable inside `process_song_data`. -/
def namesInScopeSongData : List String :=
  processSongDataLocals ++ etlModuleNames ++ etlBuiltinsUsed

/-- Every name resolvable inside `process_log_data`. -/
def namesInScopeLogData : List String :=
  processLogDataLocals ++ etlModuleNames ++ etlBuiltinsUsed

/-- One parquet write call of the source: the table written, its source
line, its keyword arguments whose value is a list of column names, and the
bare names its argument expressions reference besides the literals. -/
structure WriteCall where
  table : String
  line : Nat
  keywordColumnArgs : List (String × List String)
  argNameRefs : List String
deriving DecidableEq

/-- Lines 47-48: the songs write.  Its second argument is the POSITIONAL
comparison expression `partitionBy == [year, artist_id]` — a `==` where
the four other write calls have the keyword `=` — so the call carries no
keyword argument and references the bare name `partitionBy`. -/
def songsWriteCall : WriteCall :=
  { table := "songs", line := 47, keywordColumnArgs := [],
    argNameRefs := ["output_data", "partitionBy"] }

/-- Lines 55-56: the artists write, keyword partitionBy = [artist_id]. -/
def artistsWriteCall : WriteCall :=
  { table := "artists", line := 55,
    keywordColumnArgs := [("partitionBy", ["artist_id"])],
    argNameRefs := ["output_data"] }

/-- Lines 89-90: the users write, keyword partitionBy = [userId]. -/
def usersWriteCall : WriteCall :=
  { table := "users", line := 89,
    keywordColumnArgs := [("partitionBy", ["userId"])],
    argNameRefs := ["output_data"] }

/-- Lines 112-113: the time write, keyword partitionBy = [start_time]. -/
def timeWriteCall : WriteCall :=
  { table := "time", line := 112,
    keywordColumnArgs := [("partitionBy", ["start_time"])],
    argNameRefs := ["output_data"] }

/-- Line 134: the songplays write, keyword partitionBy =
[start_time, user_id]. -/
def songplaysWriteCall : WriteCall :=
  { table := "songplays", line := 134,
    keywordColumnArgs := [("partitionBy", ["start_time", "user_id"])],
    argNameRefs := ["output_data"] }

/-- All five write calls in source order. -/
def etlWriteCalls : List WriteCall :=
  [songsWriteCall, artistsWriteCall, usersWriteCall, timeWriteCall,
   songplaysWriteCall]

/-- The bare name the weekday column expression of line 108 evaluates. -/
def weekdayExprNameRef : String :=
  "dayofweek"

/-- The bare name the songplay_id expression of line 131 evaluates. -/
def songplayIdExprNameRef : String :=
  "monotonically_increasing_id"

/-- Line 133 of the source, transcribed: a comment line of the
`process_log_data` body, indented four spaces like every statement of the
block. -/
def etlLine133Text : String :=
  "    # write songplays table to parquet files partitioned by year and month"

/-- The opening of line 134 of the source, transcribed: the final write
statement, indented FIVE spaces. -/
def etlLine134Head : String :=
  "     songplays_table.write.parquet(output_data + "

/-- The opening of line 82, transcribed: a statement of the same block,
at the four-space indent the block establishes. -/
def etlLine82Head : String :=
  "    df = df.where("

/-- Number of leading space characters of a source line. -/
def leadingSpaceCount (s : String) : Nat :=
  (s.toList.takeWhile fun c => c = ' ').length

/-- C4 (the code slip it documents): the weekday column of the time table
(line 108) evaluates the bare name `dayofweek`, which is bound neither
among the locals of `process_log_data` nor at module scope — line 6 pulls
in year, month, dayofmonth, hour, weekofyear and date_format, but not
dayofweek — nor among the referenced builtins; evaluating line 108
therefore raises NameError, so the time table the claim describes is never
built by the code as written. -/
theorem C4_weekday_name_unbound :
    weekdayExprNameRef = "dayofweek" ∧
    weekdayExprNameRef ∉ namesInScopeLogData ∧
    "weekofyear" ∈ etlModuleNames ∧ "hour" ∈ etlModuleNames := by
  decide

/-- C8 (the code slip): the songs write call of lines 47-48 carries no
partitionBy keyword at all — its second argument is the positional
comparison `partitionBy == [year, artist_id]` (a `==` where the other four
write calls have the keyword `=`), and the bare name `partitionBy` it
evaluates is unbound in `process_song_data` — so the call does not carry
[year, artist_id] as partition columns; it raises NameError instead. -/
theorem C8_songs_write_lacks_partition_keyword :
    songsWriteCall.table = "songs" ∧
    songsWriteCall.keywordColumnArgs = [] ∧
    ("partitionBy", ["year", "artist_id"]) ∉ songsWriteCall.keywordColumnArgs ∧
    "partitionBy" ∈ songsWriteCall.argNameRefs ∧
    "partitionBy" ∉ namesInScopeSongData := by
  decide

/-- C10: the program as written never writes any output table.  Line 134
sits at five leading spaces while the statements of its block (lines 82
and 133 transcribed here) sit at four — a Python IndentationError, so the
module never loads.  Independently, the bare names `partitionBy`
(line 48), `dayofweek` (line 108) and `monotonically_increasing_id`
(line 131) are bound nowhere in scope, and each precedes the last write of
its extractor (songs write line 47 precedes the artists write at 55;
line 108 precedes the time write at 112 and the songplays write at 134),
so each extractor would raise NameError before completing its writes even
if the module loaded. -/
theorem C10_pipeline_never_writes :
    leadingSpaceCount etlLine134Head = 5 ∧
    leadingSpaceCount etlLine133Text = 4 ∧
    leadingSpaceCount etlLine82Head = 4 ∧
    "partitionBy" ∈ songsWriteCall.argNameRefs ∧
    "partitionBy" ∉ namesInScopeSongData ∧
    weekdayExprNameRef ∉ namesInScopeLogData ∧
    songplayIdExprNameRef ∉ namesInScopeLogData ∧
    etlWriteCalls.map WriteCall.line = [47, 55, 89, 112, 134] ∧
    songsWriteCall.line < artistsWriteCall.line ∧
    usersWriteCall.line < timeWriteCall.line ∧
    timeWriteCall.line < songplaysWriteCall.line := by
  decide
